import Mathlib

/-!
Verification of the authentication and token-lifecycle subsystem of the
gym-backend service. The definitions below are a shallow embedding of the
Python source:

  - src/utils/redis.py        (token cache: store, revoke, check; OTP keys)
  - src/service/auth.py       (AuthService: registration, login, verification,
                               password reset, logout, token issuance)
  - src/dependencies/user.py  (get_current_user dependency)
  - src/schema/validators.py  (phone and password validation)
  - src/web/auth.py           (HTTP handlers for the auth router)

Modelling conventions:
  - Timestamps are integers (seconds). Durations are integer differences.
  - The Redis store is an association list from string keys to entries; an
    entry carries its value and an optional absolute expiry time. A key with
    expiry `some t` is visible to reads only while `now < t`; `none` means
    the key is persistent. `SETEX` writes with an expiry; a plain `SET`
    writes with `none`, which mirrors the Redis behaviour that `SET` without
    an expiry option removes any existing TTL.
  - JWTs are records of their claims plus a flag `sig_ok` abstracting
    whether the string was signed with the configured secret; `jwt.decode`
    checks the signature and the `exp` claim (python-jose raises
    `ExpiredSignatureError`, a subclass of `JWTError`, when `exp < now`).
  - Argon2 hashing is abstracted by an injective encoding; `verify` checks
    the encoding, which is all the control flow of the source observes.
  - Exceptions are values of `PyError` returned through `Except`; service
    operations that mutate state before a later exception return their final
    database and cache states alongside the `Except` result, mirroring the
    fact that committed SQL writes and cache writes survive a later raise.
  - Python keyword-argument binding at a call site is made explicit where it
    matters: the call in `create_access_token` (src/service/auth.py line 69)
    passes the keyword `user_id` to a function whose parameters are
    `token_id`, `admin_id`, `expires_at`, `additional_data`, and the call in
    the password-reset-confirm handler (src/web/auth.py line 77) passes
    three positional arguments to a method with four required parameters.
    Both bindings fail in Python with a `TypeError` before the callee body
    runs; the embedding models the binding check and its failure.
-/

namespace GymBackend

/-- Error values corresponding to the exception classes raised by the source
(src/utils/exceptions.py plus built-in Python and jose exceptions). -/
inductive PyError where
  | badRequest (msg : String)
  | unauthorized (msg : String)
  | notFound (msg : String)
  | serviceUnavailable (msg : String)
  | valueError (msg : String)
  | typeError (msg : String)
  | jwtError
deriving DecidableEq, Repr

/-- Errors the HTTP layer maps to 4xx responses blaming the caller; a
`TypeError` escaping a handler is an unhandled server error (5xx), and
`ServiceUnavailable` is 503. -/
def PyError.isCallerError : PyError → Bool
  | .badRequest _ => true
  | .unauthorized _ => true
  | .notFound _ => true
  | .valueError _ => true
  | .serviceUnavailable _ => false
  | .typeError _ => false
  | .jwtError => false

/-- Classifier used to state that a result is a not-found error. -/
def isNotFoundError {α : Type} : Except PyError α → Bool
  | .error (.notFound _) => true
  | _ => false

/-- The JSON object stored under `token:<jti>` by `store_token_in_redis`
(src/utils/redis.py lines 203-207). -/
structure TokenData where
  admin_id : String
  is_revoked : Bool
  expires_at : Int
deriving DecidableEq, Repr

/-- Values held by the cache keys this subsystem uses: plain strings (OTP
codes), serialized token records, and sets (the `admin_tokens:` index). -/
inductive RedisValue where
  | vstr (s : String)
  | vtok (t : TokenData)
  | vset (members : List String)
deriving DecidableEq, Repr

/-- A stored entry: its value and an optional absolute expiry instant.
`none` means the key has no TTL and persists until deleted. -/
structure RedisEntry where
  val : RedisValue
  expireAt : Option Int
deriving DecidableEq, Repr

/-- The cache store: an association list from keys to entries. -/
def RedisStore : Type := List (String × RedisEntry)

instance : DecidableEq RedisStore := by
  unfold RedisStore
  infer_instance

/-- Raw lookup, ignoring expiry. -/
def rlookup : RedisStore → String → Option RedisEntry
  | [], _ => none
  | (k2, e) :: rest, k => if k2 = k then some e else rlookup rest k

/-- An entry is visible at time `now` unless its expiry has passed. -/
def entryLive (now : Int) (e : RedisEntry) : Bool :=
  match e.expireAt with
  | none => true
  | some t => now < t

/-- `GET key` at time `now`: expired keys read as absent. -/
def rget (rs : RedisStore) (now : Int) (k : String) : Option RedisValue :=
  match rlookup rs k with
  | none => none
  | some e => if entryLive now e then some e.val else none

/-- Insert or overwrite a key with a given entry. -/
def rupdate : RedisStore → String → RedisEntry → RedisStore
  | [], k, e => [(k, e)]
  | (k2, e2) :: rest, k, e =>
      if k2 = k then (k, e) :: rest else (k2, e2) :: rupdate rest k e

/-- `SETEX key ttl value`: write with expiry `now + ttl`. -/
def rsetex (rs : RedisStore) (now : Int) (k : String) (ttl : Int)
    (v : RedisValue) : RedisStore :=
  rupdate rs k { val := v, expireAt := some (now + ttl) }

/-- Plain `SET key value`: write with no TTL, discarding any existing TTL. -/
def rset (rs : RedisStore) (k : String) (v : RedisValue) : RedisStore :=
  rupdate rs k { val := v, expireAt := none }

/-- `DEL key`. -/
def rdelete (rs : RedisStore) (k : String) : RedisStore :=
  rs.filter (fun p => p.1 ≠ k)

/-- `SADD key member`: add to a set key, creating a persistent set when the
key is absent or expired. On a live key of a different type the real client
raises; that path is unreachable under the disjoint key prefixes this
subsystem uses, and is modelled as a no-op. -/
def rsadd (rs : RedisStore) (now : Int) (k m : String) : RedisStore :=
  match rlookup rs k with
  | none => rupdate rs k { val := .vset [m], expireAt := none }
  | some e =>
      if entryLive now e then
        match e.val with
        | .vset ms =>
            rupdate rs k
              { val := .vset (if ms.contains m then ms else ms ++ [m]),
                expireAt := e.expireAt }
        | _ => rs
      else rupdate rs k { val := .vset [m], expireAt := none }

/-- Cache key for a token record (`f"token:{token_id}"`). -/
def tokenKey (tid : String) : String := "token:" ++ tid

/-- Cache key for the per-account token index (`f"admin_tokens:{admin_id}"`). -/
def adminTokensKey (aid : String) : String := "admin_tokens:" ++ aid

/-- Cache key for a registration OTP (`f"phone_verification:{phone_number}"`). -/
def phoneVerificationKey (p : String) : String := "phone_verification:" ++ p

/-- Cache key for a reset OTP (`f"password_reset:{phone_number}"`). -/
def passwordResetKey (p : String) : String := "password_reset:" ++ p

theorem append_data (s t : String) : (s ++ t).data = s.data ++ t.data := by
  cases s
  cases t
  rfl

theorem tokenKey_ne_adminTokensKey (a b : String) :
    tokenKey a ≠ adminTokensKey b := by
  intro h
  have hd := congrArg String.data h
  rw [tokenKey, adminTokensKey, append_data, append_data] at hd
  have h1 : "token:".data = ['t', 'o', 'k', 'e', 'n', ':'] := rfl
  have h2 : "admin_tokens:".data
      = ['a', 'd', 'm', 'i', 'n', '_', 't', 'o', 'k', 'e', 'n', 's', ':'] := rfl
  rw [h1, h2] at hd
  simp at hd

/-! Relational data model (src/data/user.py columns observed by the auth
service) and session helpers (BaseCRUDService.get_by with single filters). -/

/-- An account row, with the columns the auth flows read or write. -/
structure User where
  id : String
  phone_number : String
  hashed_password : String
  is_active : Bool
  is_verified : Bool
  email : Option String
  username : Option String
  last_login : Option Int
deriving DecidableEq, Repr

/-- `get_by(db, phone_number=p)`: first row whose phone number matches. -/
def getUserByPhone (db : List User) (p : String) : Option User :=
  db.find? (fun u => u.phone_number == p)

/-- `get_by(db, email=c)`: first row whose email matches. -/
def getUserByEmail (db : List User) (c : String) : Option User :=
  db.find? (fun u => u.email == some c)

/-- `get_by(db, username=c)`: first row whose username matches. -/
def getUserByUsername (db : List User) (c : String) : Option User :=
  db.find? (fun u => u.username == some c)

/-- Credential lookup order of `authenticate_user` (src/service/auth.py
lines 203-207): email, then username, then phone number. -/
def lookupByCredential (db : List User) (c : String) : Option User :=
  match getUserByEmail db c with
  | some u => some u
  | none =>
      match getUserByUsername db c with
      | some u => some u
      | none => getUserByPhone db c

/-- Commit of `user.is_verified = True` for one row. -/
def setVerified (db : List User) (uid : String) : List User :=
  db.map (fun u => if u.id = uid then { u with is_verified := true } else u)

/-- Commit of `user.last_login = now` for one row. -/
def setLastLogin (db : List User) (uid : String) (now : Int) : List User :=
  db.map (fun u => if u.id = uid then { u with last_login := some now } else u)

/-! Password hashing (src/service/auth.py lines 37-43): argon2 via passlib,
abstracted by an injective encoding. -/

/-- `pwd_context.hash`, abstracted. -/
def get_password_hash (p : String) : String := "argon2$" ++ p

/-- `pwd_context.verify`, abstracted consistently with `get_password_hash`. -/
def verify_password (plain hashed : String) : Bool :=
  hashed == get_password_hash plain

/-! JWTs (python-jose encode and decode with HS256 and the configured
secret). -/

/-- A decoded JWT payload plus a signature-validity flag. -/
structure JWT where
  sub : String
  exp : Int
  jti : String
  iat : Int
  sig_ok : Bool
deriving DecidableEq, Repr

/-- `jwt.decode(token, SECRET_KEY, algorithms=[ALGORITHM])`: rejects a bad
signature and an expired `exp` claim, both as `JWTError`. -/
def jwt_decode (now : Int) (t : JWT) : Except PyError JWT :=
  if !t.sig_ok then .error .jwtError
  else if t.exp < now then .error .jwtError
  else .ok t

/-- `settings.ACCESS_TOKEN_EXPIRE_MINUTES` (src/config/config.py line 43). -/
def ACCESS_TOKEN_EXPIRE_MINUTES : Int := 60 * 24 * 8

/-! Token cache operations (src/utils/redis.py lines 177-291). The
`redis_client is None` fallbacks are not modelled: the store is assumed
reachable, as every claim under study is about its behaviour. -/

/-- `store_token_in_redis` (lines 177-221): computes `ttl = expires_at - now`;
stores nothing and returns false when the ttl is non-positive; otherwise
writes the token record under `token:<id>` with that ttl via SETEX and adds
the id to the `admin_tokens:<admin_id>` set. Returns whether a record was
stored, together with the resulting store. -/
def store_token_in_redis (rs : RedisStore) (now : Int)
    (token_id admin_id : String) (expires_at : Int) : Bool × RedisStore :=
  let ttl := expires_at - now
  if ttl ≤ 0 then (false, rs)
  else
    let td : TokenData :=
      { admin_id := admin_id, is_revoked := false, expires_at := expires_at }
    let rs2 := rsetex rs now (tokenKey token_id) ttl (.vtok td)
    let rs3 := rsadd rs2 now (adminTokensKey admin_id) token_id
    (true, rs3)

/-- `revoke_token_in_redis` (lines 224-253): reads the record; when absent
(or expired) returns false unchanged; when present, rewrites it with
`is_revoked = True` using a plain SET, which carries no expiry option. A
value that does not deserialize to a record returns false unchanged. -/
def revoke_token_in_redis (rs : RedisStore) (now : Int)
    (token_id : String) : Bool × RedisStore :=
  match rget rs now (tokenKey token_id) with
  | none => (false, rs)
  | some (.vtok td) =>
      (true, rset rs (tokenKey token_id) (.vtok { td with is_revoked := true }))
  | some _ => (false, rs)

/-- `check_token_in_redis` (lines 256-291): the record when present, live and
not revoked; `none` otherwise. -/
def check_token_in_redis (rs : RedisStore) (now : Int)
    (token_id : String) : Option TokenData :=
  match rget rs now (tokenKey token_id) with
  | none => none
  | some (.vtok td) => if td.is_revoked then none else some td
  | some _ => none

/-! Token issuance (src/service/auth.py lines 45-71). -/

/-- Parameter names of `store_token_in_redis` (src/utils/redis.py line 178). -/
def storeTokenParamNames : List String :=
  ["token_id", "admin_id", "expires_at", "additional_data"]

/-- Parameters of `store_token_in_redis` that have no default value. -/
def storeTokenRequiredNames : List String :=
  ["token_id", "admin_id", "expires_at"]

/-- Keyword names supplied at the call site inside `create_access_token`
(src/service/auth.py line 69): `token_id=`, `user_id=`, `expires_at=`. -/
def createCallKeywordNames : List String :=
  ["token_id", "user_id", "expires_at"]

/-- Python keyword binding succeeds when every supplied keyword names a
parameter and every required parameter is supplied. -/
def kwargsBindable (params required supplied : List String) : Bool :=
  supplied.all (fun k => params.contains k)
    && required.all (fun k => supplied.contains k)

/-- Message of the `TypeError` Python raises at that call site. -/
def storeKwTypeErrorMsg : String :=
  "store_token_in_redis() got an unexpected keyword argument user_id"

/-- `create_access_token` (lines 45-71): computes the expiry from the given
delta or the configured lifetime, builds the signed JWT, then calls
`store_token_in_redis(token_id=..., user_id=..., expires_at=...)`. The
keyword `user_id` does not name a parameter of the callee, so the binding
check fails and the call raises a `TypeError` before the callee runs; the
branch where the binding succeeds is unreachable for these literal name
lists and records what a successful call would have returned. The token id
(a fresh uuid4 in the source) is taken as an argument. -/
def create_access_token (rs : RedisStore) (now : Int) (subject : String)
    (expires_delta : Option Int) (token_id : String) :
    (Except PyError JWT) × RedisStore :=
  let expire := now +
    (match expires_delta with
     | some d => d
     | none => ACCESS_TOKEN_EXPIRE_MINUTES * 60)
  let tok : JWT :=
    { sub := subject, exp := expire, jti := token_id, iat := now,
      sig_ok := true }
  if kwargsBindable storeTokenParamNames storeTokenRequiredNames
      createCallKeywordNames then
    let out := store_token_in_redis rs now token_id subject expire
    (.ok tok, out.2)
  else
    (.error (.typeError storeKwTypeErrorMsg), rs)

/-- `create_otp` (lines 73-75): six independent uniformly random digits,
joined into a string; the random draws are taken as an argument. -/
def create_otp (rand : Fin 6 → Fin 10) : String :=
  ⟨(List.finRange 6).map (fun i => Char.ofNat (48 + (rand i).val))⟩

/-! Input validation (src/schema/validators.py), as applied by the pydantic
schemas before a handler body runs. -/

/-- Start codepoints of the runs of decimal digits forming the Unicode
general category Nd, from DerivedGeneralCategory.txt of Unicode 15.0 (the
database CPython 3.12 ships). Every Nd run is exactly ten consecutive
codepoints, digit zero first. Earlier Python versions ship earlier Unicode
databases that lack the newest runs (Kawi 0x11F50, Tangsa 0x16AC0, Nag
Mundari 0x1E4F0, segmented digits 0x1FBF0); no theorem below depends on a
codepoint from a version-dependent run. -/
def ndRangeStarts : List Nat :=
  [0x30, 0x660, 0x6F0, 0x7C0, 0x966, 0x9E6, 0xA66, 0xAE6, 0xB66, 0xBE6,
   0xC66, 0xCE6, 0xD66, 0xDE6, 0xE50, 0xED0, 0xF20, 0x1040, 0x1090, 0x17E0,
   0x1810, 0x1946, 0x19D0, 0x1A80, 0x1A90, 0x1B50, 0x1BB0, 0x1C40, 0x1C50,
   0xA620, 0xA8D0, 0xA900, 0xA9D0, 0xA9F0, 0xAA50, 0xABF0, 0xFF10,
   0x104A0, 0x10D30, 0x11066, 0x110F0, 0x11136, 0x111D0, 0x112F0, 0x11450,
   0x114D0, 0x11650, 0x116C0, 0x11730, 0x118E0, 0x11950, 0x11C50, 0x11D50,
   0x11DA0, 0x11F50, 0x16A60, 0x16AC0, 0x16B50, 0x1D7CE, 0x1D7D8, 0x1D7E2,
   0x1D7EC, 0x1D7F6, 0x1E140, 0x1E2F0, 0x1E4F0, 0x1E950, 0x1FBF0]

/-- What `\d` matches in a Python `str` pattern without `re.ASCII`: any
character of Unicode general category Nd, not only the ASCII digits. -/
def isPyDigit (c : Char) : Bool :=
  ndRangeStarts.any (fun s => s ≤ c.toNat && c.toNat < s + 10)

/-- One full match of `09\d\x7b9\x7d` under Python semantics: exactly
eleven characters, starting with "09", the rest decimal digits in the sense
of `\d` (Unicode Nd). -/
def matchesPhonePattern (s : String) : Bool :=
  match s.data with
  | '0' :: '9' :: rest => rest.length == 9 && rest.all isPyDigit
  | _ => false

/-- What `re.match` of that pattern accepts in Python: the anchor `$` also
matches just before one newline at the end of the string, so a match
followed by a single trailing newline is accepted as well. -/
def pyPhoneRegexMatch (s : String) : Bool :=
  matchesPhonePattern s ||
    (match s.data.getLast? with
     | some c => c == '\n' && matchesPhonePattern ⟨s.data.dropLast⟩
     | none => false)

/-- `validate_phone_number` (src/schema/validators.py lines 4-11). -/
def validate_phone_number (v : String) : Except PyError String :=
  if pyPhoneRegexMatch v then .ok v
  else .error (.valueError "Phone number must start with 09 and have 11 digits total")

/-- The character class of the special-character rule in
`validate_password`. -/
def isPasswordSpecialChar (c : Char) : Bool :=
  "!@#$%^&*(),.?\":\x7b\x7d|<>".data.contains c

/-- The character class `[a-zA-Z]`. -/
def isAsciiLetter (c : Char) : Bool :=
  ('a' ≤ c && c ≤ 'z') || ('A' ≤ c && c ≤ 'Z')

/-- `validate_password` (src/schema/validators.py lines 14-26): at least 8
characters, a digit (`\d`, so any Unicode decimal digit), a letter
(`[a-zA-Z]`, ASCII by construction), a special character, checked in that
order. -/
def validate_password (v : String) : Except PyError String :=
  if v.length < 8 then
    .error (.valueError "Password must be at least 8 characters long")
  else if !(v.data.any isPyDigit) then
    .error (.valueError "Password must contain at least one digit")
  else if !(v.data.any isAsciiLetter) then
    .error (.valueError "Password must contain at least one letter")
  else if !(v.data.any isPasswordSpecialChar) then
    .error (.valueError "Password must contain at least one special character")
  else .ok v

/-- `UserCreate` (src/schema/user.py lines 31-36), after validation. -/
structure UserCreate where
  phone_number : String
  password : String
deriving DecidableEq, Repr

/-- `PasswordResetRequest` (src/schema/auth.py lines 23-24): carries only an
email field. -/
structure PasswordResetRequest where
  email : String
deriving DecidableEq, Repr

/-- `PasswordReset` (src/schema/auth.py lines 27-54): a reset token and a
new password (the password field is strength-validated by the schema). -/
structure PasswordReset where
  token : String
  new_password : String
deriving DecidableEq, Repr

/-! The auth service (src/service/auth.py). Operations return their result
together with the final database and cache states, so that writes committed
before a later exception are preserved. -/

/-- The row `register_user` inserts (src/service/auth.py lines 165-171). -/
def mkRegisteredUser (newId phone password : String) : User :=
  { id := newId, phone_number := phone,
    hashed_password := get_password_hash password,
    is_active := true, is_verified := false,
    email := none, username := none, last_login := none }

/-- `register_user` (lines 148-197). The whole body sits in a blanket
`try/except Exception` that rolls back and re-raises `ServiceUnavailable`
with the message "Failed to register user", so both the already-registered
`BadRequest` and the missing-role `ServiceUnavailable` surface with that
message. The role table is modelled by the list of existing role names; the
fresh row id and the OTP randomness are arguments. -/
def register_user (db : List User) (roles : List String) (rs : RedisStore)
    (now : Int) (rand : Fin 6 → Fin 10) (uc : UserCreate) (newId : String) :
    (Except PyError (String × String)) × List User × RedisStore :=
  match getUserByPhone db uc.phone_number with
  | some _ => (.error (.serviceUnavailable "Failed to register user"), db, rs)
  | none =>
      if roles.contains "member" then
        let code := create_otp rand
        let rs2 := rsetex rs now (phoneVerificationKey uc.phone_number) 600
          (.vstr code)
        (.ok ("User registered. Verification code sent to your phone number",
            code),
         db ++ [mkRegisteredUser newId uc.phone_number uc.password], rs2)
      else (.error (.serviceUnavailable "Failed to register user"), db, rs)

/-- `confirm_phone_verification` (lines 111-146): user lookup by phone,
already-verified rejection, OTP lookup and comparison; on a match the
verified flag is committed and the OTP key deleted before
`create_access_token` is called, so those writes survive the exception that
the issuance call raises. A cache value that is not a plain string compares
unequal to the submitted code. -/
def confirm_phone_verification (db : List User) (rs : RedisStore) (now : Int)
    (phone code token_id : String) :
    (Except PyError (String × JWT)) × List User × RedisStore :=
  match getUserByPhone db phone with
  | none => (.error (.notFound "User with this phone number not found"), db, rs)
  | some user =>
      if user.is_verified then
        (.error (.badRequest "User is already verified"), db, rs)
      else
        match rget rs now (phoneVerificationKey phone) with
        | none =>
            (.error (.notFound "Verification code expired or not found"), db, rs)
        | some (.vstr stored) =>
            if stored ≠ code then
              (.error (.badRequest "Invalid verification code"), db, rs)
            else
              let db2 := setVerified db user.id
              let rs2 := rdelete rs (phoneVerificationKey phone)
              match create_access_token rs2 now user.id none token_id with
              | (.error e, rs3) => (.error e, db2, rs3)
              | (.ok tok, rs3) =>
                  (.ok ("Phone number verified successfully", tok), db2, rs3)
        | some _ => (.error (.badRequest "Invalid verification code"), db, rs)

/-- The success payload of `authenticate_user`. -/
structure LoginOk where
  access_token : JWT
  token_type : String
  expires_at : Int
deriving DecidableEq, Repr

/-- `authenticate_user` (lines 199-231): lookup by email, username, then
phone; reject when absent, unverified, inactive, or on password mismatch,
in that order; then issue a token (whose call raises) and only afterwards
commit `last_login`. -/
def authenticate_user (db : List User) (rs : RedisStore) (now : Int)
    (credential password token_id : String) :
    (Except PyError LoginOk) × List User × RedisStore :=
  match lookupByCredential db credential with
  | none => (.error (.unauthorized "Invalid credentials"), db, rs)
  | some user =>
      if !user.is_verified then
        (.error (.unauthorized
            "User is not verified. Please verify your phone number first."),
         db, rs)
      else if !user.is_active then
        (.error (.unauthorized "User account is disabled"), db, rs)
      else if !(verify_password password user.hashed_password) then
        (.error (.unauthorized "Invalid credentials"), db, rs)
      else
        match create_access_token rs now user.id none token_id with
        | (.error e, rs2) => (.error e, db, rs2)
        | (.ok tok, rs2) =>
            (.ok { access_token := tok, token_type := "bearer",
                   expires_at := now + ACCESS_TOKEN_EXPIRE_MINUTES * 60 },
             setLastLogin db user.id now, rs2)

/-- `logout` (lines 264-277): decode the token (only `JWTError` is caught,
as `Unauthorized`), then revoke its id in the cache; a failed revocation
raises `ServiceUnavailable`. -/
def logout (rs : RedisStore) (now : Int) (token : JWT) :
    (Except PyError String) × RedisStore :=
  match jwt_decode now token with
  | .error _ => (.error (.unauthorized "Invalid token"), rs)
  | .ok t =>
      let out := revoke_token_in_redis rs now t.jti
      if out.1 then (.ok "Successfully logged out", out.2)
      else (.error (.serviceUnavailable "Failed to revoke token"), out.2)

/-- The response of `request_password_reset`: the fixed message, and the
OTP code field, present only on the branch that includes it. -/
structure ResetRequestResponse where
  message : String
  code : Option String
deriving DecidableEq, Repr

/-- `request_password_reset` (lines 279-303): when no account matches the
phone number, return the generic message alone; otherwise generate the OTP,
cache it under `password_reset:<phone>` with a 3600 second TTL, and return
the message together with the code. -/
def request_password_reset (db : List User) (rs : RedisStore) (now : Int)
    (phone : String) (rand : Fin 6 → Fin 10) :
    ResetRequestResponse × RedisStore :=
  match getUserByPhone db phone with
  | none =>
      ({ message := "Password reset code sent to your phone number",
         code := none }, rs)
  | some _ =>
      let reset_code := create_otp rand
      ({ message := "Password reset code sent to your phone number",
         code := some reset_code },
       rsetex rs now (passwordResetKey phone) 3600 (.vstr reset_code))

/-- Sets the stored password hash of one row. -/
def setPassword (db : List User) (uid hashed : String) : List User :=
  db.map (fun u => if u.id = uid then { u with hashed_password := hashed } else u)

/-- `reset_password` (lines 305-329): lookup by phone, check the cached
reset OTP, then hash and commit the new password and delete the OTP key. -/
def reset_password (db : List User) (rs : RedisStore) (now : Int)
    (phone code new_password : String) :
    (Except PyError String) × List User × RedisStore :=
  match getUserByPhone db phone with
  | none => (.error (.notFound "User with this phone number not found"), db, rs)
  | some user =>
      match rget rs now (passwordResetKey phone) with
      | none => (.error (.notFound "Reset code expired or not found"), db, rs)
      | some (.vstr stored) =>
          if stored ≠ code then
            (.error (.badRequest "Invalid reset code"), db, rs)
          else
            (.ok "Password has been reset successfully",
             setPassword db user.id (get_password_hash new_password),
             rdelete rs (passwordResetKey phone))
      | some _ => (.error (.badRequest "Invalid reset code"), db, rs)

/-! The token-validation dependency for protected endpoints
(src/dependencies/user.py lines 17-61). -/

/-- `get_current_user`: decodes the JWT (signature and expiry), maps any
`JWTError` to 401, then loads the user row by the `sub` claim. The function
body contains no call into the token cache: neither the record presence nor
the revoked flag is consulted. -/
def get_current_user (db : List User) (now : Int) (token : JWT) :
    Except PyError User :=
  match jwt_decode now token with
  | .error _ => .error (.unauthorized "Could not validate credentials")
  | .ok t =>
      match db.find? (fun u => u.id == t.sub) with
      | none => .error (.unauthorized "Could not validate credentials")
      | some u => .ok u

/-! HTTP handlers of the auth router (src/web/auth.py), after schema
validation. -/

/-- The register handler: pydantic validates `UserCreate` (phone format,
then password strength; a validation failure is returned before the handler
body, so neither store is touched), then calls `register_user`. -/
def web_register (db : List User) (roles : List String) (rs : RedisStore)
    (now : Int) (rand : Fin 6 → Fin 10) (phone password newId : String) :
    (Except PyError (String × String)) × List User × RedisStore :=
  match validate_phone_number phone with
  | .error e => (.error e, db, rs)
  | .ok _ =>
      match validate_password password with
      | .error e => (.error e, db, rs)
      | .ok _ =>
          register_user db roles rs now rand
            { phone_number := phone, password := password } newId

/-- The password-reset request handler (src/web/auth.py lines 62-69): it
passes the request body field `email` into the `phone_number` parameter of
the service. -/
def web_request_password_reset (db : List User) (rs : RedisStore) (now : Int)
    (rd : PasswordResetRequest) (rand : Fin 6 → Fin 10) :
    ResetRequestResponse × RedisStore :=
  request_password_reset db rs now rd.email rand

/-- Message of the `TypeError` Python raises at the reset-confirm call
site. -/
def resetArityTypeErrorMsg : String :=
  "reset_password() missing 1 required positional argument: new_password"

/-- The password-reset confirm handler (src/web/auth.py lines 72-79): it
calls `auth_service.reset_password(db, reset_data.token,
reset_data.new_password)`, supplying two positional arguments after the
session for the three required parameters `phone_number`, `code`,
`new_password`. The binding is modelled by matching the supplied argument
list against the parameter list: the arity mismatch always falls through to
the `TypeError`, and the service body never runs. -/
def web_reset_password (db : List User) (rs : RedisStore) (now : Int)
    (rd : PasswordReset) : (Except PyError String) × List User × RedisStore :=
  match [rd.token, rd.new_password] with
  | [phone_number, code, new_password] =>
      reset_password db rs now phone_number code new_password
  | _ => (.error (.typeError resetArityTypeErrorMsg), db, rs)

/-! Helper lemmas shared by the claim theorems. -/

/-- Whether some account row carries the given phone number. -/
def userExists (db : List User) (p : String) : Bool :=
  (getUserByPhone db p).isSome

theorem create_access_token_spec (rs : RedisStore) (now : Int)
    (subject : String) (d : Option Int) (tid : String) :
    create_access_token rs now subject d tid =
      (.error (.typeError storeKwTypeErrorMsg), rs) := by
  have h : kwargsBindable storeTokenParamNames storeTokenRequiredNames
      createCallKeywordNames = false := rfl
  simp [create_access_token, h]

theorem rlookup_rupdate_self (rs : RedisStore) (k : String) (e : RedisEntry) :
    rlookup (rupdate rs k e) k = some e := by
  induction rs with
  | nil => simp [rupdate, rlookup]
  | cons p rest ih =>
      obtain ⟨k2, e2⟩ := p
      by_cases h : k2 = k
      · simp [rupdate, rlookup, h]
      · simp [rupdate, rlookup, h, ih]

theorem rlookup_rupdate_ne (rs : RedisStore) (k k2 : String) (e : RedisEntry)
    (h : k2 ≠ k) : rlookup (rupdate rs k2 e) k = rlookup rs k := by
  induction rs with
  | nil => simp [rupdate, rlookup, h]
  | cons p rest ih =>
      obtain ⟨k3, e3⟩ := p
      by_cases h3 : k3 = k2
      · subst h3
        simp [rupdate, rlookup, h]
      · simp [rupdate, rlookup, h3, ih]

theorem rlookup_rsadd_ne (rs : RedisStore) (now : Int) (k k2 m : String)
    (h : k2 ≠ k) : rlookup (rsadd rs now k2 m) k = rlookup rs k := by
  unfold rsadd
  cases hl : rlookup rs k2 with
  | none => simpa using rlookup_rupdate_ne rs k k2 _ h
  | some e =>
      cases hlive : entryLive now e with
      | false => simpa [hlive] using rlookup_rupdate_ne rs k k2 _ h
      | true =>
          cases hv : e.val with
          | vstr s => simp [hlive, hv]
          | vtok t => simp [hlive, hv]
          | vset ms => simpa [hlive, hv] using rlookup_rupdate_ne rs k k2 _ h

theorem rget_rset_self (rs : RedisStore) (t : Int) (k : String)
    (v : RedisValue) : rget (rset rs k v) t k = some v := by
  simp [rget, rset, rlookup_rupdate_self, entryLive]

/-- A digit drawn for the OTP renders as a decimal digit character. -/
theorem otp_char_isDigit : ∀ d : Fin 10,
    (Char.ofNat (48 + d.val)).isDigit = true := by decide

/-! Concrete scenario data used by the closed theorems. -/

/-- A verified account row. -/
def specUser : User :=
  { id := "u1", phone_number := "09123456789",
    hashed_password := get_password_hash "Secur3!pass",
    is_active := true, is_verified := true,
    email := none, username := none, last_login := none }

/-- A token for that account: correctly signed, expiring at time 1000. -/
def revokedTok : JWT :=
  { sub := "u1", exp := 1000, jti := "t1", iat := 0, sig_ok := true }

/-- A cache state in which the record of that token is marked revoked. -/
def rsWithRevoked : RedisStore :=
  [(tokenKey "t1",
    { val := .vtok { admin_id := "u1", is_revoked := true, expires_at := 1000 },
      expireAt := none })]

/-! The claims. -/

/-- C1: the claim states that validation of a token on a protected endpoint
fails with an unauthorized error whenever the cache record of the token is
absent or revoked, the revocation check being performed on every
validation. The code contradicts this: `get_current_user` never consults
the token cache. At time 500, with a correctly signed token that expires at
1000, the cache check used elsewhere reports the token invalid both when
its record is marked revoked and when the record is absent, yet
`get_current_user` accepts the token and returns the user. -/
theorem validation_accepts_revoked_token :
    revokedTok.sig_ok = true ∧
    (500 : Int) ≤ revokedTok.exp ∧
    check_token_in_redis rsWithRevoked 500 revokedTok.jti = none ∧
    check_token_in_redis [] 500 revokedTok.jti = none ∧
    get_current_user [specUser] 500 revokedTok = .ok specUser := by
  exact ⟨rfl, by norm_num [revokedTok], rfl, rfl, rfl⟩

/-- C2: the claim states that a successful issuance with a future expiry
creates a cache record with the owning account, a false revoked flag, the
expiry, and the matching TTL. The code cannot do this: the call inside
`create_access_token` passes the keyword `user_id` to a function whose
parameter is named `admin_id`, so every issuance raises a `TypeError`
before anything is stored, and the cache is left unchanged. -/
theorem token_issuance_raises_type_error (rs : RedisStore) (now : Int)
    (subject : String) (expires_delta : Option Int) (token_id : String) :
    create_access_token rs now subject expires_delta token_id =
      (.error (.typeError storeKwTypeErrorMsg), rs) :=
  create_access_token_spec rs now subject expires_delta token_id

/-- C3 counterexample: confirming verification for an already verified
account is rejected with a bad-request error, not with the not-found error
the claim states: the already-verified check precedes the OTP lookup. -/
theorem second_confirm_not_notfound_concrete :
    (confirm_phone_verification [specUser] [] 0 "09123456789" "123456" "t2").1
      = .error (.badRequest "User is already verified") ∧
    isNotFoundError
      (confirm_phone_verification [specUser] [] 0 "09123456789" "123456" "t2").1
      = false := ⟨rfl, rfl⟩

/-- C3 amended: for every account that is already verified, a repeated call
to `confirm_phone_verification` with its phone number fails with the
bad-request error "User is already verified" (never a duplicate success),
regardless of the submitted code and of the cache state. -/
theorem second_confirm_rejected_bad_request (db : List User) (rs : RedisStore)
    (now : Int) (phone code token_id : String) (u : User)
    (hfind : getUserByPhone db phone = some u)
    (hver : u.is_verified = true) :
    confirm_phone_verification db rs now phone code token_id =
      (.error (.badRequest "User is already verified"), db, rs) := by
  unfold confirm_phone_verification
  rw [hfind]
  simp [hver]

theorem second_confirm_rejected_bad_request_witness :
    confirm_phone_verification [specUser] [] 0 "09123456789" "123456" "t2" =
      (.error (.badRequest "User is already verified"), [specUser], []) :=
  second_confirm_rejected_bad_request [specUser] [] 0 "09123456789" "123456"
    "t2" specUser rfl rfl

/-- C4 counterexample: a record stored at time 0 with expiry 100 does expire
on its own, but once `revoke_token_in_redis` rewrites it (here at time 10)
the rewrite uses a plain SET with no expiry option, so at time 1000000 the
revoked record is still present, contradicting the claim that it is removed
once the original TTL elapses. -/
theorem revoked_record_persists_concrete :
    rget (store_token_in_redis [] 0 "t1" "u1" 100).2 100 (tokenKey "t1")
      = none ∧
    (revoke_token_in_redis (store_token_in_redis [] 0 "t1" "u1" 100).2 10
      "t1").1 = true ∧
    rget (revoke_token_in_redis (store_token_in_redis [] 0 "t1" "u1" 100).2 10
      "t1").2 1000000 (tokenKey "t1")
      = some (.vtok { admin_id := "u1", is_revoked := true, expires_at := 100 }) ∧
    rlookup (revoke_token_in_redis (store_token_in_redis [] 0 "t1" "u1"
      100).2 10 "t1").2 (tokenKey "t1")
      = some { val := .vtok { admin_id := "u1", is_revoked := true, expires_at := 100 }, expireAt := none } :=
  ⟨rfl, rfl, rfl, rfl⟩

/-- C4 amended: a token record is created with a finite TTL equal to the
seconds until its expiry and is removed automatically once that instant
passes while the record is untouched; but a successful revocation rewrites
the record with a plain SET, which removes the TTL, so a revoked record is
visible at every later time and persists beyond the original expiry of the
token. -/
theorem revocation_drops_ttl (rs rs2 : RedisStore) (now now2 exp2 : Int)
    (tid tid2 aid2 : String) (td : TokenData)
    (hrec : rget rs now (tokenKey tid) = some (.vtok td))
    (hfut : now2 < exp2) :
    revoke_token_in_redis rs now tid =
      (true, rset rs (tokenKey tid) (.vtok { td with is_revoked := true })) ∧
    (∀ t : Int, rget (rset rs (tokenKey tid)
        (.vtok { td with is_revoked := true })) t (tokenKey tid)
      = some (.vtok { td with is_revoked := true })) ∧
    rlookup (store_token_in_redis rs2 now2 tid2 aid2 exp2).2 (tokenKey tid2)
      = some { val := .vtok { admin_id := aid2, is_revoked := false, expires_at := exp2 }, expireAt := some exp2 } ∧
    (∀ t : Int, exp2 ≤ t →
      rget (store_token_in_redis rs2 now2 tid2 aid2 exp2).2 t (tokenKey tid2)
        = none) := by
  have httl : ¬(exp2 - now2 ≤ 0) := by omega
  have hstore : rlookup (store_token_in_redis rs2 now2 tid2 aid2 exp2).2
      (tokenKey tid2)
      = some { val := .vtok { admin_id := aid2, is_revoked := false, expires_at := exp2 }, expireAt := some (now2 + (exp2 - now2)) } := by
    simp only [store_token_in_redis, httl, if_false]
    rw [rlookup_rsadd_ne _ _ _ _ _
      (Ne.symm (tokenKey_ne_adminTokensKey tid2 aid2))]
    exact rlookup_rupdate_self _ _ _
  refine ⟨?_, ?_, ?_, ?_⟩
  · unfold revoke_token_in_redis
    rw [hrec]
  · intro t
    exact rget_rset_self rs t (tokenKey tid) _
  · have harith : now2 + (exp2 - now2) = exp2 := by omega
    rw [harith] at hstore
    exact hstore
  · intro t ht
    simp only [rget, hstore, entryLive]
    have hdead : ¬(t < now2 + (exp2 - now2)) := by omega
    simp [hdead]
    omega

theorem revocation_drops_ttl_witness :
    revoke_token_in_redis rsWithRevoked 500 "t1" =
      (true, rset rsWithRevoked (tokenKey "t1")
        (.vtok { admin_id := "u1", is_revoked := true, expires_at := 1000 })) ∧
    rget (rset rsWithRevoked (tokenKey "t1")
        (.vtok { admin_id := "u1", is_revoked := true, expires_at := 1000 }))
      123456 (tokenKey "t1")
      = some (.vtok { admin_id := "u1", is_revoked := true, expires_at := 1000 }) ∧
    rlookup (store_token_in_redis [] 0 "t9" "u9" 100).2 (tokenKey "t9")
      = some { val := .vtok { admin_id := "u9", is_revoked := false, expires_at := 100 }, expireAt := some 100 } ∧
    rget (store_token_in_redis [] 0 "t9" "u9" 100).2 100 (tokenKey "t9")
      = none := by
  obtain ⟨h1, h2, h3, h4⟩ := revocation_drops_ttl rsWithRevoked [] 500 0 100
    "t1" "t9" "u9" { admin_id := "u1", is_revoked := true, expires_at := 1000 }
    rfl (by norm_num)
  exact ⟨h1, h2 123456, h3, h4 100 le_rfl⟩

/-- C5 counterexample: an issuance whose expiry lies 5 seconds in the past
stores nothing, but it does not signal a caller error: the failure is the
`TypeError` from the keyword mismatch, which is a server-error class, and
the store function itself merely returns false. -/
theorem nonpositive_ttl_issuance_not_caller_error :
    create_access_token [] 100 "u1" (some (-5)) "t1"
      = (.error (.typeError storeKwTypeErrorMsg), []) ∧
    (PyError.typeError storeKwTypeErrorMsg).isCallerError = false ∧
    store_token_in_redis [] 100 "t1" "u1" 95 = (false, []) :=
  ⟨rfl, rfl, rfl⟩

/-- C5 amended: when the duration from now to the expiry is non-positive,
`store_token_in_redis` stores no record and returns false; the issuance
call does not signal a caller error, however — `create_access_token` fails
with the server-class `TypeError` from its mismatched keyword argument (as
every call does, the return value of the store being ignored). -/
theorem nonpositive_ttl_stores_nothing (rs rs2 : RedisStore)
    (now now2 expires_at : Int) (tid aid subject token_id : String)
    (d : Option Int) (h : expires_at - now ≤ 0) :
    store_token_in_redis rs now tid aid expires_at = (false, rs) ∧
    (create_access_token rs2 now2 subject d token_id).1
      = .error (.typeError storeKwTypeErrorMsg) ∧
    (PyError.typeError storeKwTypeErrorMsg).isCallerError = false := by
  refine ⟨?_, ?_, rfl⟩
  · simp [store_token_in_redis, h]
  · rw [create_access_token_spec]

theorem nonpositive_ttl_stores_nothing_witness :
    store_token_in_redis [] 100 "t1" "u1" 95 = (false, []) ∧
    (create_access_token [] 100 "u1" (some 7) "t1").1
      = .error (.typeError storeKwTypeErrorMsg) ∧
    (PyError.typeError storeKwTypeErrorMsg).isCallerError = false :=
  nonpositive_ttl_stores_nothing [] [] 100 100 95 "t1" "u1" "u1" "t1"
    (some 7) (by norm_num)

/-- C6 counterexample: at the same phone number, cache state and time, the
response of `request_password_reset` differs between a database that
contains a matching account and one that does not — the branch with an
account includes the OTP code in the response — so the observable response
does depend on account existence. -/
theorem reset_request_reveals_existence :
    (request_password_reset [specUser] [] 0 "09123456789" (fun _ => 0)).1
      ≠ (request_password_reset [] [] 0 "09123456789" (fun _ => 0)).1 := by
  decide

/-- C6 amended: `request_password_reset` always returns the same generic
message, and when no account matches it performs no cache write; but the
response additionally carries the OTP code exactly when an account exists,
making existence observable. When the account exists, the OTP is cached
under the password-reset key namespace with a 3600 second TTL. -/
theorem reset_request_uniform_message_code_leaks (db : List User)
    (rs : RedisStore) (now : Int) (phone : String) (rand : Fin 6 → Fin 10) :
    request_password_reset db rs now phone rand =
      ({ message := "Password reset code sent to your phone number",
         code := if userExists db phone then some (create_otp rand) else none },
       if userExists db phone then
         rsetex rs now (passwordResetKey phone) 3600 (.vstr (create_otp rand))
       else rs) := by
  unfold request_password_reset userExists
  cases h : getUserByPhone db phone <;> simp [h]

/-- C7: the password-reset confirm handler calls the service with the reset
token in the phone-number position and the new password in the code
position, and supplies no value for the required `new_password` parameter;
Python rejects the binding with a `TypeError` before the service body runs,
so every confirm request fails and both stores are returned unchanged — in
particular no password hash is ever changed through this endpoint. -/
theorem reset_confirm_always_type_error (db : List User) (rs : RedisStore)
    (now : Int) (rd : PasswordReset) :
    web_reset_password db rs now rd
      = (.error (.typeError resetArityTypeErrorMsg), db, rs) := rfl

/-- C8: logging out with a correctly signed, unexpired token whose id has no
record in the token cache fails with the service-unavailable error
"Failed to revoke token" — the failed revocation is not a no-op success. -/
theorem logout_missing_record_service_unavailable (rs : RedisStore)
    (now : Int) (tok : JWT) (hsig : tok.sig_ok = true)
    (hexp : now ≤ tok.exp)
    (habs : rget rs now (tokenKey tok.jti) = none) :
    logout rs now tok
      = (.error (.serviceUnavailable "Failed to revoke token"), rs) := by
  have hlt : ¬(tok.exp < now) := not_lt.mpr hexp
  unfold logout jwt_decode
  rw [hsig]
  simp only [Bool.not_true, Bool.false_eq_true, if_false, hlt, if_neg]
  unfold revoke_token_in_redis
  rw [habs]
  simp

theorem logout_missing_record_service_unavailable_witness :
    logout [] 0 revokedTok
      = (.error (.serviceUnavailable "Failed to revoke token"), []) :=
  logout_missing_record_service_unavailable [] 0 revokedTok rfl
    (by norm_num [revokedTok]) rfl

/-- C9: login on an unverified account with a credential that resolves to
that account and the correct password fails with the unauthorized error of
the unverified branch; no token is returned and neither store changes. -/
theorem login_unverified_unauthorized (db : List User) (rs : RedisStore)
    (now : Int) (credential password token_id : String) (u : User)
    (hfind : lookupByCredential db credential = some u)
    (hver : u.is_verified = false)
    (hpw : verify_password password u.hashed_password = true) :
    authenticate_user db rs now credential password token_id =
      (.error (.unauthorized
          "User is not verified. Please verify your phone number first."),
       db, rs) := by
  unfold authenticate_user
  rw [hfind]
  simp [hver]

theorem login_unverified_unauthorized_witness :
    authenticate_user
      [{ specUser with is_verified := false }] [] 0 "09123456789"
      "Secur3!pass" "t1" =
      (.error (.unauthorized
          "User is not verified. Please verify your phone number first."),
       [{ specUser with is_verified := false }], []) :=
  login_unverified_unauthorized
    [{ specUser with is_verified := false }] [] 0 "09123456789"
    "Secur3!pass" "t1" { specUser with is_verified := false } rfl rfl rfl

/-- C10 counterexample: the string of a valid phone number followed by one
newline is not in the language of the anchored pattern (under any reading
of `\d`), yet validation accepts it — the `$` anchor of a Python `re.match`
also matches before one trailing newline — and registration proceeds,
creates the unverified row, and writes the OTP key: it is not rejected
before the store is touched. A second acceptance the ASCII reading of
`\d` misses is also exhibited: "09" followed by the nine Persian digits
one to nine (codepoints 0x6F1 to 0x6F9, category Nd) is likewise accepted
and registered. -/
theorem registration_accepts_trailing_newline_phone :
    matchesPhonePattern "09123456789\n" = false ∧
    web_register [] ["member"] [] 0 (fun _ => 0) "09123456789\n"
      "Secur3!pass" "u1" =
      (.ok ("User registered. Verification code sent to your phone number",
          "000000"),
       [mkRegisteredUser "u1" "09123456789\n" "Secur3!pass"],
       [(phoneVerificationKey "09123456789\n",
         { val := .vstr "000000", expireAt := some 600 })]) ∧
    pyPhoneRegexMatch
      "09۱۲۳۴۵۶۷۸۹" = true ∧
    web_register [] ["member"] [] 0 (fun _ => 0)
      "09۱۲۳۴۵۶۷۸۹"
      "Secur3!pass" "u1" =
      (.ok ("User registered. Verification code sent to your phone number",
          "000000"),
       [mkRegisteredUser "u1"
         "09۱۲۳۴۵۶۷۸۹"
         "Secur3!pass"],
       [(phoneVerificationKey
           "09۱۲۳۴۵۶۷۸۹",
         { val := .vstr "000000", expireAt := some 600 })]) :=
  ⟨rfl, rfl, rfl, rfl⟩

/-- C10 amended: a registration whose phone number fails the Python match
(the anchored pattern with `\d` meaning any Unicode decimal digit, or that
pattern followed by a single trailing newline, which the `$` anchor also
accepts) is rejected by validation with both stores untouched; a
registration whose phone number passes it, with a strength-valid password,
an unregistered phone and the seeded member role, succeeds, appends an
account row that is unverified, and caches the OTP — a six character
decimal digit string — under the phone-verification key with a 600 second
TTL. -/
theorem registration_validation_and_success (db : List User)
    (roles : List String) (rs : RedisStore) (now : Int)
    (rand : Fin 6 → Fin 10) (phone password newId : String) :
    (pyPhoneRegexMatch phone = false →
      web_register db roles rs now rand phone password newId =
        (.error (.valueError
            "Phone number must start with 09 and have 11 digits total"),
         db, rs)) ∧
    (pyPhoneRegexMatch phone = true →
      validate_password password = .ok password →
      getUserByPhone db phone = none →
      roles.contains "member" = true →
      web_register db roles rs now rand phone password newId =
        (.ok ("User registered. Verification code sent to your phone number",
            create_otp rand),
         db ++ [mkRegisteredUser newId phone password],
         rsetex rs now (phoneVerificationKey phone) 600
           (.vstr (create_otp rand)))) ∧
    (mkRegisteredUser newId phone password).is_verified = false ∧
    (create_otp rand).length = 6 ∧
    (∀ c ∈ (create_otp rand).data, c.isDigit = true) := by
  refine ⟨?_, ?_, rfl, ?_, ?_⟩
  · intro h
    unfold web_register validate_phone_number
    simp [h]
  · intro h1 h2 h3 h4
    unfold web_register validate_phone_number
    simp only [h1, if_true]
    rw [h2]
    unfold register_user
    rw [h3]
    have h4m : "member" ∈ roles := by simpa using h4
    simp [h4m]
  · simp [create_otp, String.length]
  · intro c hc
    simp only [create_otp, List.mem_map, List.mem_finRange, true_and] at hc
    obtain ⟨i, rfl⟩ := hc
    exact otp_char_isDigit (rand i)

theorem registration_validation_and_success_witness :
    web_register [] ["member"] [] 0 (fun _ => 3) "0912345678" "Secur3!pass"
      "u2" =
      (.error (.valueError
          "Phone number must start with 09 and have 11 digits total"),
       [], []) ∧
    web_register [] ["member"] [] 0 (fun _ => 3) "09123456789" "Secur3!pass"
      "u2" =
      (.ok ("User registered. Verification code sent to your phone number",
          create_otp (fun _ => 3)),
       [] ++ [mkRegisteredUser "u2" "09123456789" "Secur3!pass"],
       rsetex [] 0 (phoneVerificationKey "09123456789") 600
         (.vstr (create_otp (fun _ => 3)))) := by
  constructor
  · exact (registration_validation_and_success [] ["member"] [] 0 (fun _ => 3)
      "0912345678" "Secur3!pass" "u2").1 rfl
  · exact (registration_validation_and_success [] ["member"] [] 0 (fun _ => 3)
      "09123456789" "Secur3!pass" "u2").2.1 rfl rfl rfl rfl

end GymBackend
